import Mathlib

/-!
Shallow embedding of the SubSignal pipeline (`main.py`): Reddit RSS candidate
fetch, GROQ-based per-subreddit selection, Gemini-based ranking, and Discord
publication.  External services (HTTP feed fetch, the two LLM clients, the
webhook sink) are modelled as oracles supplied as explicit parameters; Python
strings are modelled as lists of Unicode scalar values (`List Char`), matching
Python's code-point indexing and `len`.
-/

namespace SubSignal

/-- Python strings as sequences of code points. -/
abbrev Str := List Char

/-- One normalized candidate record as built by `fetch_reddit_posts`
(keys: title, body, score, url, num_comments, created_utc). -/
structure Post where
  title : Str
  body : Str
  score : Int
  url : Str
  num_comments : Int
  created_utc : Int
deriving DecidableEq

/-- The dict returned by `ask_groq_select_idea`
(keys: subreddit, title, body, url, score, groq_reasoning). -/
structure SelectedIdea where
  subreddit : Str
  title : Str
  body : Str
  url : Str
  score : Int
  groq_reasoning : Str
deriving DecidableEq

/-- One entry of the `rankings` array consumed by `send_to_discord`.
`rank` and `title` are accessed by direct subscript in the source; the other
keys are read with `.get(...)` and may be absent, hence `Option`. -/
structure RankingEntry where
  rank : Int
  title : Str
  subreddit : Option Str
  validation_score : Option Int
  market_potential : Option Str
  feasibility : Option Str
  future_outlook : Option Str
  key_risks : Option Str
  recommendation : Option Str
deriving DecidableEq

/-- The analysis dict: `rankings` is accessed by direct subscript,
`overall_analysis` via `.get` with a default. -/
structure AnalysisResult where
  rankings : List RankingEntry
  overall_analysis : Option Str
deriving DecidableEq

/-- A parsed RSS feed entry before normalization.  `published` is `none` when
the entry has no `published_parsed` attribute (the source then uses 0). -/
structure RawEntry where
  title : Str
  link : Str
  content : Str
  published : Option Int
deriving DecidableEq

/-- `published_ts = mktime(entry.published_parsed) if hasattr(...) else 0`. -/
def entryTs (e : RawEntry) : Int := e.published.getD 0

/-- The recency filter `now_ts - published_ts <= 24*3600`. -/
def keepRecent (now : Int) (e : RawEntry) : Bool := now - entryTs e ≤ 24 * 3600

/-- Normalization of a surviving entry into a candidate record: body is the
cleaned content truncated to 500 code points, score and comment count are
zero-filled (RSS supplies neither). -/
def toPost (e : RawEntry) : Post :=
  { title := e.title
    body := e.content.take 500
    score := 0
    url := e.link
    num_comments := 0
    created_utc := entryTs e }

/-- Per-source processing inside the fetch loop: recency filter, normalize,
then cap at the 5 most recent (`recent_posts[:5]`). -/
def fetchSource (now : Int) (es : List RawEntry) : List Post :=
  ((es.filter (keepRecent now)).map toPost).take 5

/-- Outcome of the HTTP fetch + feed parse for one source: a transport-level
failure (any exception) or a list of parsed entries. -/
inductive FetchOutcome where
  | err : FetchOutcome
  | ok : List RawEntry → FetchOutcome

/-- `fetch_reddit_posts`: iterates the configured sources in order; a failing
source contributes an empty list under its key and the loop continues. -/
def fetch_reddit_posts (subs : List Str) (fetch : Str → FetchOutcome) (now : Int) :
    List (Str × List Post) :=
  subs.map fun sub =>
    (sub, match fetch sub with
          | FetchOutcome.err => []
          | FetchOutcome.ok es => fetchSource now es)

/-- Outcome of the GROQ call + fence-stripping + JSON parse, as observed by
`ask_groq_select_idea`: a service error (any non-JSONDecodeError exception,
including a missing or non-integer `selected_number`), a JSON parse error, or
a parsed object with `selected_number` and an optional `reasoning`. -/
inductive GroqOutcome where
  | serviceError : GroqOutcome
  | parseError : GroqOutcome
  | ok : Int → Option Str → GroqOutcome

/-- `ask_groq_select_idea`: on a parsed response, clamp an out-of-range
`selected_number - 1` to 0 and copy the chosen post's fields; on a JSON parse
failure or a service error, fall back to the first post with a fixed
reasoning string.  `none` models an uncaught IndexError (empty input). -/
def ask_groq_select_idea (posts : List Post) (sub : Str) (o : GroqOutcome) :
    Option SelectedIdea :=
  match o with
  | GroqOutcome.ok n reasoning =>
    let idx0 : Int := n - 1
    let idx : Nat := if idx0 < 0 ∨ (posts.length : Int) ≤ idx0 then 0 else idx0.toNat
    match posts.get? idx with
    | some p =>
      some { subreddit := sub, title := p.title, body := p.body, url := p.url,
             score := p.score,
             groq_reasoning := reasoning.getD ("No reasoning provided".data) }
    | none => none
  | GroqOutcome.parseError =>
    match posts.get? 0 with
    | some p =>
      some { subreddit := sub, title := p.title, body := p.body, url := p.url,
             score := p.score,
             groq_reasoning := ("Selected by score (JSON parsing failed)".data) }
    | none => none
  | GroqOutcome.serviceError =>
    match posts.get? 0 with
    | some p =>
      some { subreddit := sub, title := p.title, body := p.body, url := p.url,
             score := p.score,
             groq_reasoning := ("Selected by score (GROQ error)".data) }
    | none => none

/-- Outcome of the Gemini call + fence-stripping + JSON parse: any failure, or
a parsed analysis object (returned by the source without validation). -/
inductive GeminiOutcome where
  | err : GeminiOutcome
  | ok : AnalysisResult → GeminiOutcome

/-- `ask_gemini_rank_ideas`: on success the parsed object is returned as-is;
on any failure a degraded ranking is synthesized (one entry per idea in input
order, rank = position + 1, validation 7, placeholder market potential,
recommendation "watch"; the other analysis keys are absent). -/
def ask_gemini_rank_ideas (selected_ideas : List SelectedIdea) :
    GeminiOutcome → AnalysisResult
  | GeminiOutcome.ok a => a
  | GeminiOutcome.err =>
    { rankings := selected_ideas.enum.map fun p =>
        { rank := (p.1 : Int) + 1
          title := p.2.title
          subreddit := some p.2.subreddit
          validation_score := some 7
          market_potential := some ("Analysis unavailable".data)
          feasibility := none
          future_outlook := none
          key_risks := none
          recommendation := some ("watch".data) }
      overall_analysis := some ("Gemini analysis failed. Manual review recommended.".data) }

/-- The `truncate` helper inside `send_to_discord`: falsy or "N/A" text maps
to "Not available"; text longer than the budget is cut to budget − 3 code
points with "..." appended. -/
def truncate (text : Str) (max_len : Nat) : Str :=
  if text = [] ∨ text = "N/A".data then "Not available".data
  else if max_len < text.length then text.take (max_len - 3) ++ "...".data
  else text

/-- One `{name, value, inline}` field of a Discord embed. -/
structure DiscordField where
  name : Str
  value : Str
  inline : Bool
deriving DecidableEq

/-- A Discord embed as built by `send_to_discord` (the wall-clock timestamp of
the main embed is omitted from the model). -/
structure Embed where
  title : Option Str
  description : Option Str
  url : Option Str
  color : Option Nat
  footer : Option Str
  fields : List DiscordField
deriving DecidableEq

/-- An embed with nothing set, used only as an `Option.getD` default when
naming concrete computed embeds. -/
def emptyEmbed : Embed :=
  { title := none, description := none, url := none, color := none,
    footer := none, fields := [] }

/-- Python list subscripting: a negative index counts from the end; an index
outside `[-len, len)` is an IndexError (`none`). -/
def pyIdx (xs : List α) (i : Int) : Option α :=
  if 0 ≤ i then xs.get? i.toNat
  else if 0 ≤ (xs.length : Int) + i then xs.get? ((xs.length : Int) + i).toNat
  else none

/-- Python `str.upper()` restricted to what `Char.toUpper` covers. -/
def pyUpper (s : Str) : Str := s.map Char.toUpper

/-- The medal emoji list indexed by `ranking["rank"] - 1`. -/
def rankEmojis : List Str := ["🥇".data, "🥈".data, "🥉".data, "4️⃣".data]

/-- The embed color list indexed by `ranking["rank"] - 1`. -/
def rankColors : List Nat := [0xFFD700, 0xC0C0C0, 0xCD7F32, 0x808080]

/-- The main analysis embed: overall analysis truncated to 4096. -/
def mainEmbed (analysis : AnalysisResult) : Embed :=
  { title := some ("🚀 SubSignal: Top Startup Ideas Analysis".data)
    description := some (truncate
      (analysis.overall_analysis.getD
        ("AI-powered analysis of top Reddit startup ideas".data)) 4096)
    url := none
    color := some 0x5865F2
    footer := some ("Powered by GROQ + Gemini AI".data)
    fields := [] }

/-- The three always-present inline fields of a per-idea embed. -/
def baseFields (r : RankingEntry) : List DiscordField :=
  [ { name := "📍 Subreddit".data,
      value := "r/".data ++ r.subreddit.getD ("unknown".data), inline := true },
    { name := "⭐ Validation".data,
      value := (match r.validation_score with
                | some v => (toString v).data
                | none => "N/A".data) ++ "/10".data, inline := true },
    { name := "📊 Status".data,
      value := pyUpper (r.recommendation.getD ("watch".data)), inline := true } ]

/-- One of the four optional long-text fields, added only when the key is
present and truthy, with its value truncated to 1024. -/
def longField (fieldName : Str) : Option Str → List DiscordField
  | some s =>
    if s = [] then []
    else [{ name := fieldName, value := truncate s 1024, inline := false }]
  | none => []

/-- The long-text analysis fields in source order. -/
def longFields (r : RankingEntry) : List DiscordField :=
  longField ("💼 Market Potential".data) r.market_potential
    ++ longField ("🔧 Feasibility".data) r.feasibility
    ++ longField ("🔮 Future Outlook".data) r.future_outlook
    ++ longField ("⚠️ Key Risks".data) r.key_risks

/-- The inline Reddit-score field inserted at position 3 when the title join
found an idea with a truthy url. -/
def scoreField (d : SelectedIdea) : DiscordField :=
  { name := "👍 Reddit Score".data, value := (toString d.score).data, inline := true }

/-- The per-idea embed title, truncated to 256. -/
def ideaTitle (emoji : Str) (r : RankingEntry) : Str :=
  truncate (emoji ++ " Rank ".data ++ (toString r.rank).data ++ ": ".data ++ r.title) 256

/-- Builds one per-idea embed.  `none` models the IndexError raised by the
emoji/color list subscription when `rank - 1` is outside Python's accepted
range.  The title join uses the first `selected_ideas` element with an equal
title; url and score field are attached only when the join found an idea
whose url is truthy. -/
def buildIdeaEmbed (selected_ideas : List SelectedIdea) (r : RankingEntry) :
    Option Embed :=
  match pyIdx rankEmojis (r.rank - 1), pyIdx rankColors (r.rank - 1) with
  | some emoji, some color =>
    match selected_ideas.find? (fun d => d.title == r.title) with
    | some d =>
      if d.url ≠ [] then
        some { title := some (ideaTitle emoji r), description := none,
               url := some d.url, color := some color, footer := none,
               fields := baseFields r ++ [scoreField d] ++ longFields r }
      else
        some { title := some (ideaTitle emoji r), description := none,
               url := none, color := some color, footer := none,
               fields := baseFields r ++ longFields r }
    | none =>
      some { title := some (ideaTitle emoji r), description := none,
             url := none, color := some color, footer := none,
             fields := baseFields r ++ longFields r }
  | _, _ => none

/-- Builds the per-idea embeds for the given ranking entries; a failure on any
entry aborts the whole construction (the exception escapes the build loop
before anything is sent). -/
def buildIdeaEmbeds (selected_ideas : List SelectedIdea) :
    List RankingEntry → Option (List Embed)
  | [] => some []
  | r :: rest =>
    match buildIdeaEmbed selected_ideas r with
    | none => none
    | some e => (buildIdeaEmbeds selected_ideas rest).map (e :: ·)

/-- Result of one `requests.post(...).raise_for_status()` against the sink:
2xx success, an HTTP error status (`HTTPError`), or a connection-level
failure (any other `RequestException`). -/
inductive SendResult where
  | success : SendResult
  | httpError : SendResult
  | connError : SendResult
deriving DecidableEq

/-- An exception escaping the body of `send_to_discord`'s outer `try`. -/
inductive PyErr where
  | indexError : PyErr
  | connectionError : PyErr
deriving DecidableEq

/-- The per-idea send loop: each send is tried under
`except requests.exceptions.HTTPError`, so an HTTP error status is logged and
the loop continues, while a connection-level failure escapes to the outer
handler and the remaining items are never attempted. -/
def sendItems (sink : Nat → SendResult) : Nat → List Embed →
    List (Embed × SendResult) × Option PyErr
  | _, [] => ([], none)
  | k, e :: rest =>
    match sink k with
    | SendResult.connError => ([(e, SendResult.connError)], some PyErr.connectionError)
    | r =>
      let rec_result := sendItems sink (k + 1) rest
      ((e, r) :: rec_result.1, rec_result.2)

/-- `if not DISCORD_WEBHOOK_URL or DISCORD_WEBHOOK_URL == "None"`. -/
def webhookConfigured : Option Str → Bool
  | none => false
  | some s => ¬(s = [] ∨ s = "None".data)

/-- The body of `send_to_discord`'s outer `try`: build all embeds, then send
the main embed (under its own `except HTTPError`), then the per-idea loop.
Returns the post calls actually made, paired with the exception (if any)
escaping to the outer handler. -/
def discordBody (analysis : AnalysisResult) (selected_ideas : List SelectedIdea)
    (sink : Nat → SendResult) : List (Embed × SendResult) × Option PyErr :=
  match buildIdeaEmbeds selected_ideas (analysis.rankings.take 4) with
  | none => ([], some PyErr.indexError)
  | some ideas =>
    let m := mainEmbed analysis
    match sink 0 with
    | SendResult.connError => ([(m, SendResult.connError)], some PyErr.connectionError)
    | r =>
      let rest := sendItems sink 1 ideas
      ((m, r) :: rest.1, rest.2)

/-- The outer exception handlers: `except HTTPError` and `except Exception`
each only log, so every escaping exception class is absorbed. -/
def catchAll : Option PyErr → Option PyErr
  | none => none
  | some PyErr.indexError => none
  | some PyErr.connectionError => none

/-- `send_to_discord`, observed as the list of webhook post calls made (with
each call's outcome).  Unconfigured webhook: early return, no calls. -/
def send_to_discord (webhook : Option Str) (analysis : AnalysisResult)
    (selected_ideas : List SelectedIdea) (sink : Nat → SendResult) :
    List (Embed × SendResult) :=
  if webhookConfigured webhook then (discordBody analysis selected_ideas sink).1
  else []

/-- The exception propagated out of `send_to_discord`, after the outer
handlers run. -/
def send_to_discord_raises (webhook : Option Str) (analysis : AnalysisResult)
    (selected_ideas : List SelectedIdea) (sink : Nat → SendResult) : Option PyErr :=
  if webhookConfigured webhook then catchAll (discordBody analysis selected_ideas sink).2
  else none

/-- The environment-supplied configuration read at module load. -/
structure Config where
  groq_key : Option Str
  gemini_key : Option Str
  discord_webhook : Option Str

/-- The external collaborators of one run, as oracles. -/
structure Oracles where
  fetch : Str → FetchOutcome
  groq : Str → GroqOutcome
  gemini : GeminiOutcome
  sink : Nat → SendResult

/-- Observable outcome of one `main()` run: snapshot files written (in
order), webhook post calls made, and any exception escaping publication. -/
structure RunResult where
  artifacts : List Str
  discordAttempts : List (Embed × SendResult)
  discordRaises : Option PyErr
deriving DecidableEq

/-- The Step-2 loop of `main()`: empty groups are skipped, every non-empty
group goes through `ask_groq_select_idea`. -/
def selectedOf (o : Oracles) (subs : List Str) (now : Int) : List SelectedIdea :=
  (fetch_reddit_posts subs o.fetch now).filterMap fun sp =>
    if sp.2 = [] then none else ask_groq_select_idea sp.2 sp.1 (o.groq sp.1)

/-- `main()`: abort before any artifact when an LLM key is missing; write the
raw snapshot, abort if nothing was selected, otherwise write the remaining
snapshots and publish. -/
def mainRun (cfg : Config) (o : Oracles) (subs : List Str) (now : Int) : RunResult :=
  if cfg.groq_key.isNone || cfg.gemini_key.isNone then
    { artifacts := [], discordAttempts := [], discordRaises := none }
  else
    let selected := selectedOf o subs now
    if selected = [] then
      { artifacts := ["subsignal_top_posts.json".data],
        discordAttempts := [], discordRaises := none }
    else
      let analysis := ask_gemini_rank_ideas selected o.gemini
      { artifacts := ["subsignal_top_posts.json".data, "selected_ideas.json".data,
                      "gemini_analysis.json".data],
        discordAttempts := send_to_discord cfg.discord_webhook analysis selected o.sink,
        discordRaises := send_to_discord_raises cfg.discord_webhook analysis selected o.sink }

theorem truncate_length_le (text : Str) (m : Nat) (h : 13 ≤ m) :
    (truncate text m).length ≤ m := by
  unfold truncate
  split
  · have h13 : ("Not available".data).length = 13 := rfl
    omega
  · split
    · have h3 : ("...".data).length = 3 := rfl
      rw [List.length_append, List.length_take]
      omega
    · omega

theorem truncate_of_long (text : Str) (m : Nat) (h13 : 13 ≤ m) (h : m < text.length) :
    truncate text m = text.take (m - 3) ++ "...".data := by
  have hne : ¬(text = [] ∨ text = "N/A".data) := by
    rintro (rfl | rfl)
    · simp at h
    · have : ("N/A".data).length = 3 := rfl
      omega
  unfold truncate
  rw [if_neg hne, if_pos h]

theorem truncate_of_short (text : Str) (m : Nat)
    (h0 : text ≠ []) (hna : text ≠ "N/A".data) (h : text.length ≤ m) :
    truncate text m = text := by
  have hne : ¬(text = [] ∨ text = "N/A".data) := by
    rintro (rfl | rfl)
    · exact h0 rfl
    · exact hna rfl
  unfold truncate
  rw [if_neg hne, if_neg (by omega)]

/-- Claim C1, amended: on the fallback path `ask_gemini_rank_ideas` returns
rankings of length exactly m whose rank fields are 1..m in order, and it never
raises; on the LLM-success path the parsed response is returned without any
validation, so the length/permutation guarantee is whatever the service
returned. -/
theorem c1_rank_fallback_guarantees (ideas : List SelectedIdea) :
    (ask_gemini_rank_ideas ideas GeminiOutcome.err).rankings.length = ideas.length ∧
    (ask_gemini_rank_ideas ideas GeminiOutcome.err).rankings.map RankingEntry.rank
      = (List.range ideas.length).map (fun (i : Nat) => (i : Int) + 1) ∧
    (∀ a, ask_gemini_rank_ideas ideas (GeminiOutcome.ok a) = a) := by
  refine ⟨?_, ?_, fun a => rfl⟩
  · simp [ask_gemini_rank_ideas]
  · have h1 : (ask_gemini_rank_ideas ideas GeminiOutcome.err).rankings.map RankingEntry.rank
        = ideas.enum.map (fun p => ((p.1 : Int) + 1)) := by
      show (ideas.enum.map _).map RankingEntry.rank = _
      rw [List.map_map]
      rfl
    have h2 : (List.range ideas.length).map (fun (i : Nat) => (i : Int) + 1)
        = ideas.enum.map (fun p => ((p.1 : Int) + 1)) := by
      rw [← List.enum_map_fst ideas, List.map_map]
      rfl
    rw [h1, h2]

/-- Input for the C1 counterexample. -/
def c1Idea : SelectedIdea :=
  { subreddit := "startups".data, title := "T".data, body := [], url := [],
    score := 0, groq_reasoning := "r".data }

/-- A syntactically valid LLM-success response carrying zero rankings. -/
def c1BadAnalysis : AnalysisResult := { rankings := [], overall_analysis := none }

/-- Claim C1 counterexample: on the LLM-success path with m = 1 input and a
service response whose rankings list is empty, the returned rankings have
length 0 ≠ 1, so the permutation-of-1..m guarantee fails on the success
path. -/
theorem c1_counterexample :
    (ask_gemini_rank_ideas [c1Idea] (GeminiOutcome.ok c1BadAnalysis)).rankings.length = 0 ∧
    [c1Idea].length = 1 := by
  exact ⟨rfl, rfl⟩

/-- Witness for C1 at a concrete one-element input. -/
theorem c1_witness :
    (ask_gemini_rank_ideas [c1Idea] GeminiOutcome.err).rankings.length = [c1Idea].length :=
  (c1_rank_fallback_guarantees [c1Idea]).1

/-- Claim C3: on every non-empty group, selection returns exactly one
SelectedIdea whose title/body/url/score equal those of some input element,
and a parsed `selected_number - 1` outside `[0, n)` is clamped to the first
item; the operation never raises (`some` result). -/
theorem c3_select_returns_member (posts : List Post) (sub : Str) (o : GroqOutcome)
    (hne : posts ≠ []) :
    (∃ idea i p, ask_groq_select_idea posts sub o = some idea ∧
        posts.get? i = some p ∧ idea.title = p.title ∧ idea.body = p.body ∧
        idea.url = p.url ∧ idea.score = p.score) ∧
    (∀ n re, o = GroqOutcome.ok n re → (n - 1 < 0 ∨ (posts.length : Int) ≤ n - 1) →
      ∃ idea p, ask_groq_select_idea posts sub o = some idea ∧
        posts.get? 0 = some p ∧ idea.title = p.title ∧ idea.body = p.body ∧
        idea.url = p.url ∧ idea.score = p.score) := by
  obtain ⟨p0, ps, rfl⟩ := List.exists_cons_of_ne_nil hne
  cases o with
  | parseError =>
    refine ⟨⟨_, 0, p0, rfl, rfl, rfl, rfl, rfl, rfl⟩, ?_⟩
    intro n re h
    cases h
  | serviceError =>
    refine ⟨⟨_, 0, p0, rfl, rfl, rfl, rfl, rfl, rfl⟩, ?_⟩
    intro n re h
    cases h
  | ok n re =>
    by_cases hcond : n - 1 < 0 ∨ (((p0 :: ps).length : Nat) : Int) ≤ n - 1
    · have hres : ask_groq_select_idea (p0 :: ps) sub (GroqOutcome.ok n re)
          = some { subreddit := sub, title := p0.title, body := p0.body,
                   url := p0.url, score := p0.score,
                   groq_reasoning := re.getD ("No reasoning provided".data) } := by
        simp only [ask_groq_select_idea, if_pos hcond]
        rfl
      refine ⟨⟨_, 0, p0, hres, rfl, rfl, rfl, rfl, rfl⟩, ?_⟩
      intro n' re' heq _
      cases heq
      exact ⟨_, p0, hres, rfl, rfl, rfl, rfl, rfl⟩
    · have hle : 0 ≤ n - 1 := by omega
      have hlt : (n - 1).toNat < (p0 :: ps).length := by omega
      obtain ⟨p, hp⟩ : ∃ p, (p0 :: ps).get? (n - 1).toNat = some p := by
        cases hg : (p0 :: ps).get? (n - 1).toNat with
        | none =>
          rw [List.get?_eq_none] at hg
          omega
        | some p => exact ⟨p, rfl⟩
      have hres : ask_groq_select_idea (p0 :: ps) sub (GroqOutcome.ok n re)
          = some { subreddit := sub, title := p.title, body := p.body,
                   url := p.url, score := p.score,
                   groq_reasoning := re.getD ("No reasoning provided".data) } := by
        simp only [ask_groq_select_idea, if_neg hcond, hp]
      refine ⟨⟨_, (n - 1).toNat, p, hres, hp, rfl, rfl, rfl, rfl⟩, ?_⟩
      intro n' re' heq hrange
      cases heq
      exact absurd hrange hcond

/-- Input post for the C3 witness. -/
def c3Post : Post :=
  { title := "t".data, body := "b".data, score := 3, url := "u".data,
    num_comments := 0, created_utc := 0 }

/-- Witness for C3: a one-element group with an out-of-range selected number
(5) still yields a SelectedIdea matching an input element, clamped to the
first item. -/
theorem c3_witness :
    (∃ idea i p, ask_groq_select_idea [c3Post] ("s".data) (GroqOutcome.ok 5 none) = some idea ∧
        [c3Post].get? i = some p ∧ idea.title = p.title ∧ idea.body = p.body ∧
        idea.url = p.url ∧ idea.score = p.score) ∧
    (∀ n re, GroqOutcome.ok 5 none = GroqOutcome.ok n re →
      (n - 1 < 0 ∨ (([c3Post].length : Nat) : Int) ≤ n - 1) →
      ∃ idea p, ask_groq_select_idea [c3Post] ("s".data) (GroqOutcome.ok 5 none) = some idea ∧
        [c3Post].get? 0 = some p ∧ idea.title = p.title ∧ idea.body = p.body ∧
        idea.url = p.url ∧ idea.score = p.score) :=
  c3_select_returns_member [c3Post] ("s".data) (GroqOutcome.ok 5 none) (by decide)

/-- Claim C4, amended: the two fallback reasoning strings are exactly
"Selected by score (JSON parsing failed)" for a JSON-parse failure and
"Selected by score (GROQ error)" for a service error (not the spec's
lower-case "selected by score: ..." variants); both select the first item,
the two strings are distinct, and the field is always populated. -/
theorem c4_fallback_reasoning_strings (posts : List Post) (sub : Str) (p : Post)
    (ps : List Post) (hp : posts = p :: ps) :
    ask_groq_select_idea posts sub GroqOutcome.parseError
      = some { subreddit := sub, title := p.title, body := p.body, url := p.url,
               score := p.score,
               groq_reasoning := "Selected by score (JSON parsing failed)".data } ∧
    ask_groq_select_idea posts sub GroqOutcome.serviceError
      = some { subreddit := sub, title := p.title, body := p.body, url := p.url,
               score := p.score,
               groq_reasoning := "Selected by score (GROQ error)".data } ∧
    ("Selected by score (JSON parsing failed)".data : Str)
      ≠ "Selected by score (GROQ error)".data := by
  subst hp
  exact ⟨rfl, rfl, by decide⟩

/-- Input post for the C4 counterexample and witness. -/
def c4Post : Post :=
  { title := "t4".data, body := [], score := 0, url := "u4".data,
    num_comments := 0, created_utc := 0 }

/-- Claim C4 counterexample: the JSON-parse fallback reasoning is
"Selected by score (JSON parsing failed)", not the claimed exact string
"selected by score: JSON parsing failed" (and likewise differs for the
service-error string). -/
theorem c4_counterexample :
    (ask_groq_select_idea [c4Post] ("startups".data) GroqOutcome.parseError).map
        SelectedIdea.groq_reasoning
      = some ("Selected by score (JSON parsing failed)".data) ∧
    (ask_groq_select_idea [c4Post] ("startups".data) GroqOutcome.parseError).map
        SelectedIdea.groq_reasoning
      ≠ some ("selected by score: JSON parsing failed".data) ∧
    (ask_groq_select_idea [c4Post] ("startups".data) GroqOutcome.serviceError).map
        SelectedIdea.groq_reasoning
      ≠ some ("selected by score: service error".data) := by
  refine ⟨rfl, by decide, by decide⟩

/-- Witness for C4 at a concrete one-element group. -/
theorem c4_witness :
    ask_groq_select_idea [c4Post] ("startups".data) GroqOutcome.parseError
      = some { subreddit := "startups".data, title := c4Post.title, body := c4Post.body,
               url := c4Post.url, score := c4Post.score,
               groq_reasoning := "Selected by score (JSON parsing failed)".data } ∧
    ask_groq_select_idea [c4Post] ("startups".data) GroqOutcome.serviceError
      = some { subreddit := "startups".data, title := c4Post.title, body := c4Post.body,
               url := c4Post.url, score := c4Post.score,
               groq_reasoning := "Selected by score (GROQ error)".data } ∧
    ("Selected by score (JSON parsing failed)".data : Str)
      ≠ "Selected by score (GROQ error)".data :=
  c4_fallback_reasoning_strings [c4Post] ("startups".data) c4Post [] rfl

/-- Claim C7: the fetch keeps an item under the recency filter iff
`now - created_at ≤ 24h`; the −24h−1s boundary is excluded, the −24h+1s
boundary included; a missing timestamp (conventional 0) fails the filter for
any `now` later than 24h after the epoch; and every post in the final
per-source output comes from an entry passing the filter. -/
theorem c7_recency_filter (now : Int) (es : List RawEntry) (e : RawEntry) :
    (e ∈ es.filter (keepRecent now) ↔ (e ∈ es ∧ now - entryTs e ≤ 24 * 3600)) ∧
    keepRecent now { title := [], link := [], content := [],
                     published := some (now - (24 * 3600 + 1)) } = false ∧
    keepRecent now { title := [], link := [], content := [],
                     published := some (now - (24 * 3600 - 1)) } = true ∧
    (24 * 3600 < now →
      keepRecent now { title := [], link := [], content := [], published := none } = false) ∧
    (∀ post, post ∈ fetchSource now es →
      ∃ re, re ∈ es ∧ toPost re = post ∧ now - entryTs re ≤ 24 * 3600) := by
  refine ⟨?_, ?_, ?_, ?_, ?_⟩
  · rw [List.mem_filter]
    simp [keepRecent]
  · simp [keepRecent, entryTs]
  · simp [keepRecent, entryTs]
  · intro hnow
    simp [keepRecent, entryTs]
    omega
  · intro post hpost
    have h1 : post ∈ (es.filter (keepRecent now)).map toPost :=
      List.take_subset _ _ hpost
    obtain ⟨re, hre, rfl⟩ := List.mem_map.mp h1
    rw [List.mem_filter] at hre
    refine ⟨re, hre.1, rfl, ?_⟩
    simpa [keepRecent] using hre.2

/-- Feed entry for the C7 witness. -/
def c7Entry : RawEntry :=
  { title := "e".data, link := "l".data, content := [], published := some 99000 }

/-- Witness for C7 at `now = 100000` and a concrete one-entry feed. -/
theorem c7_witness :
    keepRecent 100000 { title := [], link := [], content := [], published := none } = false ∧
    (c7Entry ∈ [c7Entry].filter (keepRecent 100000) ↔
      (c7Entry ∈ [c7Entry] ∧ (100000 : Int) - entryTs c7Entry ≤ 24 * 3600)) :=
  ⟨(c7_recency_filter 100000 [c7Entry] c7Entry).2.2.2.1 (by omega),
   (c7_recency_filter 100000 [c7Entry] c7Entry).1⟩

/-- Claim C8: the fetch result has one key per configured source in order; a
source whose fetch fails at transport level maps to the empty list (the key
is present), and such a failure never prevents the other sources from being
present. -/
theorem c8_source_keys_total (subs : List Str) (fetch : Str → FetchOutcome) (now : Int) :
    (fetch_reddit_posts subs fetch now).map Prod.fst = subs ∧
    (∀ sub, sub ∈ subs → ∃ ps, (sub, ps) ∈ fetch_reddit_posts subs fetch now) ∧
    (∀ sub, sub ∈ subs → fetch sub = FetchOutcome.err →
      (sub, ([] : List Post)) ∈ fetch_reddit_posts subs fetch now) := by
  refine ⟨?_, ?_, ?_⟩
  · show (subs.map _).map Prod.fst = subs
    rw [List.map_map]
    exact List.map_id' subs
  · intro sub hsub
    exact ⟨_, List.mem_map_of_mem _ hsub⟩
  · intro sub hsub herr
    show (sub, ([] : List Post)) ∈ subs.map _
    refine List.mem_map.mpr ⟨sub, hsub, ?_⟩
    rw [herr]

/-- Source list for the C8 witness. -/
def c8Subs : List Str := ["startups".data, "SaaS".data]

/-- Fetch oracle for the C8 witness: transport failure on the first source,
an empty feed on the second. -/
def c8Fetch (s : Str) : FetchOutcome :=
  if s = "startups".data then FetchOutcome.err else FetchOutcome.ok []

/-- Witness for C8: with a failing first source, both keys are present and
the failing source maps to the empty list. -/
theorem c8_witness :
    (fetch_reddit_posts c8Subs c8Fetch 0).map Prod.fst = c8Subs ∧
    ("startups".data, ([] : List Post)) ∈ fetch_reddit_posts c8Subs c8Fetch 0 :=
  ⟨(c8_source_keys_total c8Subs c8Fetch 0).1,
   (c8_source_keys_total c8Subs c8Fetch 0).2.2 ("startups".data)
     (by decide) (by rfl)⟩

/-- Claim C9: with both LLM keys configured, no sink endpoint and at least
one selected idea, the run makes zero webhook calls, publication returns
without error, and all three snapshot artifacts are written. -/
theorem c9_no_sink_noop (cfg : Config) (o : Oracles) (subs : List Str) (now : Int)
    (hg : cfg.groq_key.isSome = true) (hm : cfg.gemini_key.isSome = true)
    (hw : webhookConfigured cfg.discord_webhook = false)
    (hsel : selectedOf o subs now ≠ []) :
    (mainRun cfg o subs now).discordAttempts = [] ∧
    (mainRun cfg o subs now).discordRaises = none ∧
    (mainRun cfg o subs now).artifacts
      = ["subsignal_top_posts.json".data, "selected_ideas.json".data,
         "gemini_analysis.json".data] := by
  obtain ⟨k1, hk1⟩ := Option.isSome_iff_exists.mp hg
  obtain ⟨k2, hk2⟩ := Option.isSome_iff_exists.mp hm
  have h1 : (cfg.groq_key.isNone || cfg.gemini_key.isNone) = false := by
    rw [hk1, hk2]
    rfl
  unfold mainRun
  rw [h1]
  simp only [Bool.false_eq_true, if_false]
  rw [if_neg hsel]
  refine ⟨?_, ?_, rfl⟩
  · simp [send_to_discord, hw]
  · simp [send_to_discord_raises, hw]

/-- Feed entry for the C9 witness. -/
def c9Entry : RawEntry :=
  { title := "t".data, link := "u".data, content := [], published := some 500 }

/-- Oracles for the C9 witness: one recent entry per source, a failing
selection LLM (fallback still selects), a failing ranking LLM. -/
def c9Oracles : Oracles :=
  { fetch := fun _ => FetchOutcome.ok [c9Entry]
    groq := fun _ => GroqOutcome.serviceError
    gemini := GeminiOutcome.err
    sink := fun _ => SendResult.success }

/-- Configuration for the C9 witness: LLM keys present, no webhook. -/
def c9Cfg : Config :=
  { groq_key := some ("k".data), gemini_key := some ("k".data), discord_webhook := none }

/-- Witness for C9 at a concrete configuration and oracle set. -/
theorem c9_witness :
    (mainRun c9Cfg c9Oracles ["startups".data] 1000).discordAttempts = [] ∧
    (mainRun c9Cfg c9Oracles ["startups".data] 1000).discordRaises = none ∧
    (mainRun c9Cfg c9Oracles ["startups".data] 1000).artifacts
      = ["subsignal_top_posts.json".data, "selected_ideas.json".data,
         "gemini_analysis.json".data] :=
  c9_no_sink_noop c9Cfg c9Oracles ["startups".data] 1000 rfl rfl rfl (by decide)

theorem sendItems_no_connError (sink : Nat → SendResult)
    (h : ∀ k, sink k ≠ SendResult.connError) (es : List Embed) :
    ∀ k : Nat,
      sendItems sink k es = ((es.enumFrom k).map (fun p => (p.2, sink p.1)), none) := by
  induction es with
  | nil => intro k; rfl
  | cons e rest ih =>
    intro k
    cases hsk : sink k with
    | connError => exact absurd hsk (h k)
    | success => simp [sendItems, hsk, ih (k + 1)]
    | httpError => simp [sendItems, hsk, ih (k + 1)]

/-- Claim C2, amended: when every sink failure is an HTTP error status
(`HTTPError` from `raise_for_status`), a failure on the summary message does
not prevent the per-item messages, and a per-item failure logs and continues
— every built embed is attempted exactly once, in order, and no exception
escapes.  (A connection-level failure instead escapes the per-send handlers
and the outer catch-all skips all remaining messages — see the
counterexample.) -/
theorem c2_http_failures_never_abort (webhook : Option Str) (analysis : AnalysisResult)
    (selected : List SelectedIdea) (sink : Nat → SendResult) (ideas : List Embed)
    (hcfg : webhookConfigured webhook = true)
    (hs : ∀ k, sink k ≠ SendResult.connError)
    (hb : buildIdeaEmbeds selected (analysis.rankings.take 4) = some ideas) :
    send_to_discord webhook analysis selected sink
      = (mainEmbed analysis, sink 0)
          :: (ideas.enumFrom 1).map (fun p => (p.2, sink p.1)) ∧
    send_to_discord_raises webhook analysis selected sink = none := by
  have hbody : discordBody analysis selected sink
      = ((mainEmbed analysis, sink 0)
          :: (ideas.enumFrom 1).map (fun p => (p.2, sink p.1)), none) := by
    unfold discordBody
    rw [hb]
    cases hsk : sink 0 with
    | connError => exact absurd hsk (hs 0)
    | success => simp [hsk, sendItems_no_connError sink hs ideas 1]
    | httpError => simp [hsk, sendItems_no_connError sink hs ideas 1]
  constructor
  · simp [send_to_discord, hcfg, hbody]
  · simp [send_to_discord_raises, hcfg, hbody, catchAll]

/-- Ranking entry for the C2 inputs. -/
def c2Entry : RankingEntry :=
  { rank := 1, title := "T".data, subreddit := none, validation_score := none,
    market_potential := none, feasibility := none, future_outlook := none,
    key_risks := none, recommendation := none }

/-- Analysis input for the C2 counterexample and witness. -/
def c2A : AnalysisResult :=
  { rankings := [c2Entry], overall_analysis := some ("ok".data) }

/-- The per-item embeds built from `c2A` (one embed). -/
def c2Ideas : List Embed := (buildIdeaEmbeds [] (c2A.rankings.take 4)).getD []

/-- Claim C2 counterexample: with a configured webhook and a sink whose
failures are connection errors, one per-item message exists but the failure
on the summary send aborts publication before any per-item attempt — so
"a failure sending the summary never prevents the per-item messages" is
false for connection-level failures. -/
theorem c2_counterexample :
    buildIdeaEmbeds [] (c2A.rankings.take 4) = some c2Ideas ∧
    c2Ideas.length = 1 ∧
    send_to_discord (some ("W".data)) c2A [] (fun _ => SendResult.connError)
      = [(mainEmbed c2A, SendResult.connError)] := by
  refine ⟨rfl, rfl, rfl⟩

/-- Sink for the C2 witness: every post gets an HTTP error status. -/
def c2Sink : Nat → SendResult := fun _ => SendResult.httpError

/-- Witness for C2: all HTTP-error failures — the summary and the per-item
message are both attempted and nothing escapes. -/
theorem c2_witness :
    send_to_discord (some ("W".data)) c2A [] c2Sink
      = (mainEmbed c2A, c2Sink 0)
          :: (c2Ideas.enumFrom 1).map (fun p => (p.2, c2Sink p.1)) ∧
    send_to_discord_raises (some ("W".data)) c2A [] c2Sink = none :=
  c2_http_failures_never_abort (some ("W".data)) c2A [] c2Sink c2Ideas rfl
    (fun k => by simp [c2Sink]) rfl

theorem pyIdx_four_none (xs : List α) (h4 : xs.length = 4) (i : Int) :
    pyIdx xs i = none ↔ (i < -4 ∨ 4 ≤ i) := by
  unfold pyIdx
  split
  · rw [List.get?_eq_none, h4]
    omega
  · split
    · rw [List.get?_eq_none, h4]
      rename_i hneg hpos
      rw [h4] at hpos
      omega
    · rename_i hneg hneg2
      rw [h4] at hneg2
      constructor
      · intro _
        omega
      · intro _
        rfl

theorem buildIdeaEmbed_spec (selected : List SelectedIdea) (r : RankingEntry) (e : Embed)
    (he : buildIdeaEmbed selected r = some e) :
    ∃ emoji color, pyIdx rankEmojis (r.rank - 1) = some emoji ∧
      pyIdx rankColors (r.rank - 1) = some color ∧
      e.title = some (ideaTitle emoji r) ∧
      (∀ d, selected.find? (fun d2 => d2.title == r.title) = some d → d.url ≠ [] →
        e.url = some d.url ∧ e.fields = baseFields r ++ [scoreField d] ++ longFields r) ∧
      (∀ d, selected.find? (fun d2 => d2.title == r.title) = some d → ¬d.url ≠ [] →
        e.url = none ∧ e.fields = baseFields r ++ longFields r) ∧
      (selected.find? (fun d2 => d2.title == r.title) = none →
        e.url = none ∧ e.fields = baseFields r ++ longFields r) := by
  unfold buildIdeaEmbed at he
  split at he
  · rename_i emoji color h1 h2
    split at he
    · rename_i d0 h3
      split at he
      · rename_i h4
        cases he
        refine ⟨emoji, color, h1, h2, rfl, ?_, ?_, ?_⟩
        · intro d hd h4'
          rw [h3] at hd
          cases hd
          exact ⟨rfl, rfl⟩
        · intro d hd h4'
          rw [h3] at hd
          cases hd
          exact absurd h4 h4'
        · intro h
          rw [h3] at h
          exact Option.noConfusion h
      · rename_i h4
        cases he
        refine ⟨emoji, color, h1, h2, rfl, ?_, ?_, ?_⟩
        · intro d hd h4'
          rw [h3] at hd
          cases hd
          exact absurd h4' h4
        · intro d hd h4'
          rw [h3] at hd
          cases hd
          exact ⟨rfl, rfl⟩
        · intro h
          rw [h3] at h
          exact Option.noConfusion h
    · rename_i h3
      cases he
      refine ⟨emoji, color, h1, h2, rfl, ?_, ?_, ?_⟩
      · intro d hd h4'
        rw [h3] at hd
        exact Option.noConfusion hd
      · intro d hd h4'
        rw [h3] at hd
        exact Option.noConfusion hd
      · intro h
        exact ⟨rfl, rfl⟩
  · exact Option.noConfusion he

theorem buildIdeaEmbeds_length (selected : List SelectedIdea) :
    ∀ (rs : List RankingEntry) (ideas : List Embed),
      buildIdeaEmbeds selected rs = some ideas → ideas.length = rs.length := by
  intro rs
  induction rs with
  | nil =>
    intro ideas h
    cases h
    rfl
  | cons r rest ih =>
    intro ideas h
    unfold buildIdeaEmbeds at h
    cases h1 : buildIdeaEmbed selected r with
    | none => rw [h1] at h; exact Option.noConfusion h
    | some e =>
      rw [h1] at h
      obtain ⟨tl, htl, rfl⟩ := Option.map_eq_some'.mp h
      simp [ih tl htl]

theorem buildIdeaEmbeds_get (selected : List SelectedIdea) :
    ∀ (rs : List RankingEntry) (ideas : List Embed),
      buildIdeaEmbeds selected rs = some ideas →
      ∀ k r e, rs.get? k = some r → ideas.get? k = some e →
        buildIdeaEmbed selected r = some e := by
  intro rs
  induction rs with
  | nil =>
    intro ideas h k r e hr he
    exact Option.noConfusion hr
  | cons r0 rest ih =>
    intro ideas h k r e hr he
    unfold buildIdeaEmbeds at h
    cases h1 : buildIdeaEmbed selected r0 with
    | none => rw [h1] at h; exact Option.noConfusion h
    | some e0 =>
      rw [h1] at h
      obtain ⟨tl, htl, rfl⟩ := Option.map_eq_some'.mp h
      cases k with
      | zero =>
        cases hr
        cases he
        exact h1
      | succ k' =>
        exact ih tl htl k' r e hr he

theorem find?_title_first (pre : List SelectedIdea) (d : SelectedIdea)
    (post : List SelectedIdea) (t : Str)
    (hpre : ∀ x, x ∈ pre → x.title ≠ t) (hd : d.title = t) :
    (pre ++ d :: post).find? (fun d2 => d2.title == t) = some d := by
  induction pre with
  | nil =>
    simp only [List.nil_append]
    exact List.find?_cons_of_pos _ (beq_iff_eq.mpr hd)
  | cons x xs ih =>
    have hx : (x.title == t) = false :=
      beq_eq_false_iff_ne.mpr (hpre x (List.mem_cons_self x xs))
    simp only [List.cons_append, List.find?_cons, hx]
    exact ih fun y hy => hpre y (List.mem_cons_of_mem x hy)

/-- Claim C5, amended: publication builds one message per entry for up to the
first 4 RankingEntry items taken in the order they appear in the rankings
sequence (the source does not sort by rank — see the counterexample); each
entry is joined to a SelectedIdea by exact title equality with the first
match winning, and the source-URL link and engagement-score field are
attached only when that join succeeds (and the joined url is non-empty). -/
theorem c5_publication_order_join (selected : List SelectedIdea)
    (rankings : List RankingEntry) (ideas : List Embed)
    (hb : buildIdeaEmbeds selected (rankings.take 4) = some ideas) :
    ideas.length = min 4 rankings.length ∧
    (∀ k r e, (rankings.take 4).get? k = some r → ideas.get? k = some e →
      buildIdeaEmbed selected r = some e) ∧
    (∀ r e, buildIdeaEmbed selected r = some e →
      (∀ u, e.url = some u →
        ∃ d, selected.find? (fun d2 => d2.title == r.title) = some d ∧ d.url = u) ∧
      (∀ d, selected.find? (fun d2 => d2.title == r.title) = some d → d.url ≠ [] →
        e.url = some d.url ∧
        e.fields = baseFields r ++ [scoreField d] ++ longFields r) ∧
      (selected.find? (fun d2 => d2.title == r.title) = none →
        e.url = none ∧ e.fields = baseFields r ++ longFields r)) ∧
    (∀ (pre : List SelectedIdea) (d : SelectedIdea) (post : List SelectedIdea) (t : Str),
      (∀ x, x ∈ pre → x.title ≠ t) → d.title = t →
      (pre ++ d :: post).find? (fun d2 => d2.title == t) = some d) := by
  refine ⟨?_, buildIdeaEmbeds_get selected _ ideas hb, ?_, find?_title_first⟩
  · rw [buildIdeaEmbeds_length selected _ ideas hb, List.length_take]
  · intro r e he
    obtain ⟨emoji, color, h1, h2, htitle, hsome, hsomeNo, hnone⟩ :=
      buildIdeaEmbed_spec selected r e he
    refine ⟨?_, ?_, hnone⟩
    · intro u hu
      cases h3 : selected.find? (fun d2 => d2.title == r.title) with
      | some d =>
        by_cases h4 : d.url ≠ []
        · refine ⟨d, rfl, ?_⟩
          rw [(hsome d h3 h4).1] at hu
          exact Option.some.inj hu
        · rw [(hsomeNo d h3 h4).1] at hu
          exact Option.noConfusion hu
      | none =>
        rw [(hnone h3).1] at hu
        exact Option.noConfusion hu
    · intro d hd hurl
      exact hsome d hd hurl

/-- A rank-2 entry listed before a rank-1 entry, for the C5 counterexample. -/
def c5rB : RankingEntry :=
  { rank := 2, title := "B".data, subreddit := none, validation_score := none,
    market_potential := none, feasibility := none, future_outlook := none,
    key_risks := none, recommendation := none }

/-- The rank-1 entry listed second, for the C5 counterexample. -/
def c5rA : RankingEntry :=
  { rank := 1, title := "A".data, subreddit := none, validation_score := none,
    market_potential := none, feasibility := none, future_outlook := none,
    key_risks := none, recommendation := none }

/-- Analysis whose rankings sequence is not in ascending rank order. -/
def c5A : AnalysisResult :=
  { rankings := [c5rB, c5rA], overall_analysis := none }

/-- The embeds built from `c5A`. -/
def c5Ideas : List Embed := (buildIdeaEmbeds [] (c5A.rankings.take 4)).getD []

/-- Claim C5 counterexample: with rankings listed as [rank 2, rank 1], the
first message built is for the rank-2 entry — messages follow sequence
order, not ascending rank order. -/
theorem c5_counterexample :
    c5A.rankings.map RankingEntry.rank = [2, 1] ∧
    buildIdeaEmbeds [] (c5A.rankings.take 4) = some c5Ideas ∧
    c5Ideas.head?.bind (fun e => e.title) = some ("🥈 Rank 2: B".data) := by
  refine ⟨rfl, rfl, ?_⟩
  decide

/-- Witness for C5 at the concrete two-entry analysis. -/
theorem c5_witness :
    buildIdeaEmbeds [] (c5A.rankings.take 4) = some c5Ideas ∧
    c5Ideas.length = min 4 c5A.rankings.length :=
  ⟨rfl, (c5_publication_order_join [] c5A.rankings c5Ideas rfl).1⟩

theorem baseFields_inline (r : RankingEntry) :
    ∀ f, f ∈ baseFields r → f.inline = true := by
  intro f hf
  simp only [baseFields, List.mem_cons, List.not_mem_nil, or_false] at hf
  rcases hf with rfl | rfl | rfl <;> rfl

theorem mem_longField_bound (nm : Str) (v : Option Str) (f : DiscordField)
    (hf : f ∈ longField nm v) : f.inline = false ∧ f.value.length ≤ 1024 := by
  cases v with
  | none => simp [longField] at hf
  | some s =>
    simp only [longField] at hf
    by_cases hs : s = []
    · rw [if_pos hs] at hf
      simp at hf
    · rw [if_neg hs] at hf
      rw [List.mem_singleton] at hf
      subst hf
      exact ⟨rfl, truncate_length_le s 1024 (by norm_num)⟩

theorem mem_longFields_bound (r : RankingEntry) (f : DiscordField)
    (hf : f ∈ longFields r) : f.inline = false ∧ f.value.length ≤ 1024 := by
  simp only [longFields, List.mem_append] at hf
  rcases hf with ((hf | hf) | hf) | hf <;> exact mem_longField_bound _ _ _ hf

/-- Claim C6: every published message respects the hard budgets — each of the
four long-text field values (the non-inline fields) is at most 1024 code
points, the per-item title is at most 256, and the summary description is at
most 4096 with the "..." truncation marker appended whenever the overall
analysis was cut. -/
theorem c6_size_budgets (analysis : AnalysisResult) (selected : List SelectedIdea)
    (r : RankingEntry) (e : Embed) :
    ((mainEmbed analysis).description.getD []).length ≤ 4096 ∧
    (∀ ov, analysis.overall_analysis = some ov → 4096 < ov.length →
      (mainEmbed analysis).description = some (ov.take 4093 ++ "...".data)) ∧
    (buildIdeaEmbed selected r = some e →
      (e.title.getD []).length ≤ 256 ∧
      ∀ f, f ∈ e.fields → f.inline = false → f.value.length ≤ 1024) := by
  refine ⟨?_, ?_, ?_⟩
  · show (truncate (analysis.overall_analysis.getD _) 4096).length ≤ 4096
    exact truncate_length_le _ _ (by norm_num)
  · intro ov hov hlen
    show some (truncate (analysis.overall_analysis.getD _) 4096) = _
    rw [hov]
    show some (truncate ov 4096) = _
    rw [truncate_of_long ov 4096 (by norm_num) hlen]
  · intro he
    obtain ⟨emoji, color, h1, h2, htitle, hsome, hsomeNo, hnone⟩ :=
      buildIdeaEmbed_spec selected r e he
    constructor
    · rw [htitle]
      show (ideaTitle emoji r).length ≤ 256
      exact truncate_length_le _ _ (by norm_num)
    · intro f hf hinl
      cases h3 : selected.find? (fun d2 => d2.title == r.title) with
      | some d =>
        by_cases h4 : d.url ≠ []
        · rw [(hsome d h3 h4).2] at hf
          rcases List.mem_append.mp hf with hf | hf
          · rcases List.mem_append.mp hf with hf | hf
            · rw [baseFields_inline r f hf] at hinl
              exact Bool.noConfusion hinl
            · rw [List.mem_singleton] at hf
              subst hf
              exact Bool.noConfusion hinl
          · exact (mem_longFields_bound r f hf).2
        · rw [(hsomeNo d h3 h4).2] at hf
          rcases List.mem_append.mp hf with hf | hf
          · rw [baseFields_inline r f hf] at hinl
            exact Bool.noConfusion hinl
          · exact (mem_longFields_bound r f hf).2
      | none =>
        rw [(hnone h3).2] at hf
        rcases List.mem_append.mp hf with hf | hf
        · rw [baseFields_inline r f hf] at hinl
          exact Bool.noConfusion hinl
        · exact (mem_longFields_bound r f hf).2

/-- An overall analysis one code point over the 4096 budget, for the C6
witness. -/
def c6Long : Str := List.replicate 4097 'a'

/-- Analysis input for the C6 witness. -/
def c6A : AnalysisResult := { rankings := [], overall_analysis := some c6Long }

/-- A minimal ranking entry, used only to instantiate C6. -/
def c6R : RankingEntry :=
  { rank := 1, title := [], subreddit := none, validation_score := none,
    market_potential := none, feasibility := none, future_outlook := none,
    key_risks := none, recommendation := none }

/-- Witness for C6: an over-budget overall analysis is cut to 4093 code
points plus the "..." marker, and the resulting description is within the
4096 budget. -/
theorem c6_witness :
    ((mainEmbed c6A).description.getD []).length ≤ 4096 ∧
    (mainEmbed c6A).description = some (c6Long.take 4093 ++ "...".data) :=
  ⟨(c6_size_budgets c6A [] c6R emptyEmbed).1,
   (c6_size_budgets c6A [] c6R emptyEmbed).2.1 c6Long rfl (by
      show 4096 < (List.replicate 4097 'a').length
      rw [List.length_replicate]
      omega)⟩

theorem buildIdeaEmbed_isSome (selected : List SelectedIdea) (r : RankingEntry)
    (e1 : Str) (e2 : Nat)
    (h1 : pyIdx rankEmojis (r.rank - 1) = some e1)
    (h2 : pyIdx rankColors (r.rank - 1) = some e2) :
    (buildIdeaEmbed selected r).isSome = true := by
  unfold buildIdeaEmbed
  split
  · split
    · split
      · rfl
      · rfl
    · rfl
  · rename_i hfail
    exact (hfail e1 e2 h1 h2).elim

/-- Claim C10, amended: for every input, publication returns normally and
never propagates an exception — every internal failure is absorbed by the
enclosing handlers; the emoji/color list indexing actually raises only when
`rank ≤ -4` or `rank ≥ 5`, since Python accepts negative indexes down to −4
(ranks −3..0 silently pick an unintended emoji/color — see the
counterexample). -/
theorem c10_publication_never_raises (webhook : Option Str) (analysis : AnalysisResult)
    (selected : List SelectedIdea) (sink : Nat → SendResult) (r : RankingEntry) :
    send_to_discord_raises webhook analysis selected sink = none ∧
    (buildIdeaEmbed selected r = none ↔ (r.rank ≤ -4 ∨ 5 ≤ r.rank)) := by
  constructor
  · unfold send_to_discord_raises
    split
    · cases h : (discordBody analysis selected sink).2 with
      | none => rfl
      | some err => cases err <;> rfl
    · rfl
  · constructor
    · intro hnone
      by_contra hcon
      push_neg at hcon
      obtain ⟨e1, h1⟩ : ∃ e1, pyIdx rankEmojis (r.rank - 1) = some e1 := by
        cases h : pyIdx rankEmojis (r.rank - 1) with
        | some e1 => exact ⟨e1, rfl⟩
        | none =>
          have := (pyIdx_four_none rankEmojis rfl (r.rank - 1)).mp h
          omega
      obtain ⟨e2, h2⟩ : ∃ e2, pyIdx rankColors (r.rank - 1) = some e2 := by
        cases h : pyIdx rankColors (r.rank - 1) with
        | some e2 => exact ⟨e2, rfl⟩
        | none =>
          have := (pyIdx_four_none rankColors rfl (r.rank - 1)).mp h
          omega
      have hs := buildIdeaEmbed_isSome selected r e1 e2 h1 h2
      rw [hnone] at hs
      exact Bool.noConfusion hs
    · intro hcon
      have h1 : pyIdx rankEmojis (r.rank - 1) = none :=
        (pyIdx_four_none rankEmojis rfl _).mpr (by omega)
      have h2 : pyIdx rankColors (r.rank - 1) = none :=
        (pyIdx_four_none rankColors rfl _).mpr (by omega)
      unfold buildIdeaEmbed
      rw [h1, h2]

/-- A rank-0 entry: outside 1..4, yet accepted by Python negative indexing. -/
def c10R : RankingEntry :=
  { rank := 0, title := "Z".data, subreddit := none, validation_score := none,
    market_potential := none, feasibility := none, future_outlook := none,
    key_risks := none, recommendation := none }

/-- Claim C10 counterexample: a RankingEntry whose rank (0) lies outside 1..4
does NOT make the emoji/color indexing fail — Python's negative indexing
accepts index −1 and silently picks the last emoji. -/
theorem c10_counterexample :
    c10R.rank = 0 ∧
    (buildIdeaEmbed [] c10R).isSome = true ∧
    (buildIdeaEmbed [] c10R).bind (fun e => e.title) = some ("4️⃣ Rank 0: Z".data) := by
  refine ⟨rfl, rfl, ?_⟩
  decide

/-- Analysis input for the C10 witness. -/
def c10A : AnalysisResult := { rankings := [], overall_analysis := none }

/-- Witness for C10 at concrete inputs. -/
theorem c10_witness :
    send_to_discord_raises none c10A [] (fun _ => SendResult.success) = none ∧
    (buildIdeaEmbed [] c10R = none ↔ (c10R.rank ≤ -4 ∨ 5 ≤ c10R.rank)) :=
  c10_publication_never_raises none c10A [] (fun _ => SendResult.success) c10R

end SubSignal
